import Mathlib

/-!
# Verification of the btc-recovery-bot core (src/bot.js)

A shallow embedding of the phrase-checking pipeline of `src/bot.js`:
the global word-result cache, the per-handler balance-check steps
(word check, topic exploration, AI topic expansion, batch, BIP39
dictionary scan), the admin notification, the user-facing result
rendering, the cancellation plumbing and the progress throttling.

The repository ships only `src/bot.js`; the library modules it
requires (`lib/bitcoin`, `lib/balance-checker`, `lib/session`, ...)
are not part of the sources.  Where a definition depends on one of
those modules it is modelled from the specification and its doc
comment says so; everything else is translated directly from
`src/bot.js`.

Balances are modelled as naturals (the code only compares them with
`> 0` and sums them), the balance oracle `checkBalances` as an
`Option`-valued outcome (`none` = the call threw), and Telegram
messages structurally: a handler step returns the cache writes it
performs, the oracle calls it makes, and the content of the messages
it sends, rather than performing I/O.
-/

namespace BtcBot

/-- Per-address balance data as produced by the balance oracle
(`data.balance` and `data.api` in `src/bot.js`). -/
structure BalanceRecord where
  balance : Nat
  api : String
deriving DecidableEq, Repr

/-- A cached verdict for a phrase (spec §3 `CachedWordResult`): whether any
derived address showed positive balance, the cumulative balance observed and
the number of addresses checked. -/
structure CachedWordResult where
  hasBalance : Bool
  balanceTotal : Nat
  addressCount : Nat
deriving DecidableEq, Repr

/-- The global word-result cache, as an association list keyed by the
normalized phrase. -/
abbrev WordCache := List (String × CachedWordResult)

/-- Modelled from the spec: `lib/session` is not in `src/`.  The cache is
"keyed by normalized phrase (case/whitespace-normalized)" (spec §3):
lowercased with surrounding whitespace stripped (written out over the
character list so that it evaluates by kernel reduction). -/
def normalizeWord (w : String) : String :=
  String.mk
    ((((w.toList.map Char.toLower).dropWhile Char.isWhitespace).reverse.dropWhile
        Char.isWhitespace).reverse)

/-- Modelled from the spec: `session.getCachedWordResult` of the missing
`lib/session` — lookup of the normalized phrase in the global cache. -/
def getCachedWordResult (cache : WordCache) (word : String) : Option CachedWordResult :=
  cache.lookup (normalizeWord word)

/-- Modelled from the spec: `session.cacheWordResult` of the missing
`lib/session` — an "idempotent upsert; a later call with different
`addressCount` for the same phrase silently overwrites the earlier
summary" (spec §4.3). -/
def cacheWordResult (cache : WordCache) (word : String) (hasBalance : Bool)
    (balanceTotal addressCount : Nat) : WordCache :=
  let k := normalizeWord word
  let entry : CachedWordResult := ⟨hasBalance, balanceTotal, addressCount⟩
  if (cache.lookup k).isSome then
    cache.map (fun p => if p.1 = k then (k, entry) else p)
  else
    cache ++ [(k, entry)]

/-! ## SHA-256

`lib/bitcoin` is not in `src/`; the spec fixes the brain-wallet key material
as `SHA-256(UTF-8 bytes of phrase)` (spec §3), so the hash is implemented
here concretely, over byte lists represented as naturals. -/

/-- Truncate to a 32-bit word. -/
def w32 (x : Nat) : Nat := x % 4294967296

/-- 32-bit right rotation. -/
def rotr32 (x n : Nat) : Nat :=
  w32 ((x >>> n) ||| (x <<< (32 - n)))

/-- The 64 SHA-256 round constants (FIPS 180-4 §4.2.2, in decimal). -/
def sha256K : List Nat :=
  [1116352408, 1899447441, 3049323471, 3921009573, 961987163, 1508970993,
   2453635748, 2870763221, 3624381080, 310598401, 607225278, 1426881987,
   1925078388, 2162078206, 2614888103, 3248222580, 3835390401, 4022224774,
   264347078, 604807628, 770255983, 1249150122, 1555081692, 1996064986,
   2554220882, 2821834349, 2952996808, 3210313671, 3336571891, 3584528711,
   113926993, 338241895, 666307205, 773529912, 1294757372, 1396182291,
   1695183700, 1986661051, 2177026350, 2456956037, 2730485921, 2820302411,
   3259730800, 3345764771, 3516065817, 3600352804, 4094571909, 275423344,
   430227734, 506948616, 659060556, 883997877, 958139571, 1322822218,
   1537002063, 1747873779, 1955562222, 2024104815, 2227730452, 2361852424,
   2428436474, 2756734187, 3204031479, 3329325298]

/-- The SHA-256 initial hash state (FIPS 180-4 §5.3.3, in decimal). -/
def sha256Init : List Nat :=
  [1779033703, 3144134277, 1013904242, 2773480762,
   1359893119, 2600822924, 528734635, 1541459225]

/-- SHA-256 padding: append `0x80`, zeros up to 56 mod 64, then the bit
length as 8 big-endian bytes. -/
def sha256Pad (msg : List Nat) : List Nat :=
  let L := msg.length
  let zeros := (120 - ((L + 1) % 64)) % 64
  let bits := 8 * L
  msg ++ [0x80] ++ List.replicate zeros 0 ++
    (List.range 8).map (fun i => (bits >>> (8 * (7 - i))) % 256)

/-- Split a byte list into 64-byte blocks. -/
def chunks64 : List Nat → List (List Nat)
  | [] => []
  | l@(_ :: _) => l.take 64 :: chunks64 (l.drop 64)
termination_by l => l.length
decreasing_by simp_all [List.length_drop]; omega

/-- The 16 initial 32-bit big-endian words of a 64-byte block. -/
def blockWords (block : List Nat) : List Nat :=
  (List.range 16).map (fun i =>
    block.getD (4 * i) 0 * 16777216 + block.getD (4 * i + 1) 0 * 65536 +
    block.getD (4 * i + 2) 0 * 256 + block.getD (4 * i + 3) 0)

/-- Extend the message schedule by `n` further words. -/
def sha256Extend : Nat → List Nat → List Nat
  | 0, ws => ws
  | n + 1, ws =>
    let i := ws.length
    let x15 := ws.getD (i - 15) 0
    let x2 := ws.getD (i - 2) 0
    let s0 := (rotr32 x15 7) ^^^ (rotr32 x15 18) ^^^ (x15 >>> 3)
    let s1 := (rotr32 x2 17) ^^^ (rotr32 x2 19) ^^^ (x2 >>> 10)
    sha256Extend n (ws ++ [w32 (ws.getD (i - 16) 0 + s0 + ws.getD (i - 7) 0 + s1)])

/-- One SHA-256 compression round on the state `[a,b,c,d,e,f,g,h]`. -/
def sha256Round (st : List Nat) (k w : Nat) : List Nat :=
  match st with
  | [a, b, c, d, e, f, g, h] =>
    let S1 := (rotr32 e 6) ^^^ (rotr32 e 11) ^^^ (rotr32 e 25)
    let ch := (e &&& f) ^^^ ((e ^^^ 0xffffffff) &&& g)
    let temp1 := w32 (h + S1 + ch + k + w)
    let S0 := (rotr32 a 2) ^^^ (rotr32 a 13) ^^^ (rotr32 a 22)
    let maj := (a &&& b) ^^^ (a &&& c) ^^^ (b &&& c)
    let temp2 := w32 (S0 + maj)
    [w32 (temp1 + temp2), a, b, c, w32 (d + temp1), e, f, g]
  | other => other

/-- Compress one 64-byte block into the hash state. -/
def sha256Block (h : List Nat) (block : List Nat) : List Nat :=
  let ws := sha256Extend 48 (blockWords block)
  let st := (sha256K.zip ws).foldl (fun st p => sha256Round st p.1 p.2) h
  List.zipWith (fun x y => w32 (x + y)) h st

/-- SHA-256 of a byte list, as the 32 digest bytes. -/
def sha256 (msg : List Nat) : List Nat :=
  let final := (chunks64 (sha256Pad msg)).foldl sha256Block sha256Init
  (final.map (fun wd => [(wd >>> 24) % 256, (wd >>> 16) % 256, (wd >>> 8) % 256, wd % 256])).flatten

/-- One lowercase hex digit. -/
def hexDigit (n : Nat) : String :=
  String.mk ["0123456789abcdef".toList.getD n '0']

/-- A byte as two lowercase hex digits. -/
def byteToHex (b : Nat) : String :=
  hexDigit (b / 16) ++ hexDigit (b % 16)

/-- A byte list as a lowercase hex string. -/
def bytesToHex (bs : List Nat) : String :=
  String.join (bs.map byteToHex)

/-- The UTF-8 bytes of a string, as naturals. -/
def utf8Bytes (s : String) : List Nat :=
  s.toUTF8.toList.map (fun b => b.toNat)

/-! ## Brain-wallet derivation (modelled) -/

/-- The four address encodings of a brain wallet
(`result.addresses` in `src/bot.js`). -/
structure BrainAddresses where
  legacy_compressed : String
  legacy_uncompressed : String
  segwit : String
  nativeSegwit : String
deriving DecidableEq, Repr

/-- A brain-wallet derivation result (`bitcoin.deriveBrainWallet`'s return
value as consumed by `src/bot.js`): hex private key, both WIF encodings and
the address bundle. -/
structure BrainWalletResult where
  privateKey : String
  wifCompressed : String
  wifUncompressed : String
  addresses : BrainAddresses
deriving DecidableEq, Repr

/-- Modelled from the spec: `bitcoin.deriveBrainWallet` of the missing
`lib/bitcoin`.  The key material is `SHA-256(UTF-8 bytes of phrase)`
(spec §3); the WIF encodings and the four address strings are
"deterministic functions of `KeyMaterial` alone" with the compressed and
uncompressed legacy addresses always distinct (spec §3 `AddressBundle`).
The concrete base58/bech32 encoders live in the missing module; they are
modelled as distinct injective taggings of the hex key material. -/
def deriveBrainWallet (phrase : String) : BrainWalletResult :=
  let k := bytesToHex (sha256 (utf8Bytes phrase))
  { privateKey := k
    wifCompressed := "wif-c-" ++ k
    wifUncompressed := "wif-u-" ++ k
    addresses :=
      { legacy_compressed := "1c-" ++ k
        legacy_uncompressed := "1u-" ++ k
        segwit := "3-" ++ k
        nativeSegwit := "bc1q-" ++ k } }

/-! ## User-facing rendering (src/bot.js) -/

/-- `escHtml` (src/bot.js): HTML-escape the characters `&`, `<`, `>`. -/
def escHtml (text : String) : String :=
  ((text.replace "&" "&amp;").replace "<" "&lt;").replace ">" "&gt;"

/-- The derivation payload of one entry of `derivationDetails`: a
brain-wallet result carries `addresses`; a repeated-seed result carries
`pathResults`, of which `buildResultsMessage` renders the first address of
the first path (its `path` tag and `legacy` address), when present. -/
inductive DetailResult where
  | brain (addrs : BrainAddresses)
  | seed (firstAddr : Option (String × String))
deriving DecidableEq, Repr

/-- One entry of the `derivationDetails` list of `handleWordCheck`. -/
structure Detail where
  mode : String
  result : DetailResult
deriving DecidableEq, Repr

/-- The per-entry detail section of `buildResultsMessage`
(src/bot.js lines 3662-3675). -/
def renderDetail (d : Detail) : String :=
  "🛠️ <b>" ++ d.mode ++ ":</b>\n" ++
  match d.result with
  | .brain addrs =>
      "  🏛️ Legacy: <code>" ++ addrs.legacy_compressed.take 16 ++ "...</code>\n" ++
      "  🔵 Native: <code>" ++ addrs.nativeSegwit.take 20 ++ "...</code>\n"
  | .seed (some pa) =>
      "  📍 " ++ pa.1 ++ ": <code>" ++ pa.2.take 16 ++ "...</code>\n"
  | .seed none => ""

/-- `buildResultsMessage` (src/bot.js lines 3649-3681).  `isInBIP39` is the
value of `bitcoin.isInBIP39Wordlist(word)` (the 2048-entry wordlist lives in
the missing `lib/bitcoin`), hoisted to a parameter.  The balance section is
the fixed literal "All 0 BTC": the `balanceResults` and `foundBalance`
arguments are never consulted. -/
def buildResultsMessage (isInBIP39 : Bool) (word : String) (varCount addrCount : Nat)
    (details : List Detail) (balanceResults : List (String × BalanceRecord))
    (foundBalance : Bool) : String :=
  "🔍 <b>Results for \"" ++ escHtml word ++ "\"</b>\n" ++
    "🎰 " ++ toString varCount ++ " variations • 🏠 " ++ toString addrCount ++
    " addresses\n\n" ++
    "📖 BIP39 wordlist: " ++ (if isInBIP39 then "✅ YES" else "❌ NO") ++ "\n" ++
    (if isInBIP39 then "" else "   <i>(PBKDF2 still processes it as a seed)</i>\n") ++
    "\n" ++
    String.join ((details.take 2).map renderDetail) ++
    "\n💰 <b>Balances:</b>\n  ❌ All 0 BTC\n"

/-- One per-address balance line of `handleBrainWallet` (src/bot.js
line 923): the rendered balance is the fixed literal "0 BTC" whatever
`data.balance` holds. -/
def brainBalanceLine (addr : String) : String :=
  "  ⚪ " ++ addr.take 8 ++ "..." ++ addr.takeRight 6 ++ ": 0 BTC\n"

/-- The balance text `handleBrainWallet` accumulates over the oracle results
(src/bot.js lines 921-925). -/
def brainBalanceText (balances : List (String × BalanceRecord)) : String :=
  String.join (balances.map (fun p => brainBalanceLine p.1))

/-! ## Admin notification (`notifyAdmin`) -/

/-- The content of the admin "BALANCE FOUND" message assembled by
`notifyAdmin` (src/bot.js lines 90-138), embedded structurally: the checked
word, the mode tag, the positive-balance entries rendered in the body, the
brain-wallet hex private key, both WIF encodings, and the four addresses of
the message's "All Addresses" section. -/
structure AdminNotification where
  word : String
  mode : String
  entries : List (String × BalanceRecord)
  privateKey : String
  wifCompressed : String
  wifUncompressed : String
  addresses : List String
deriving DecidableEq, Repr

/-- `notifyAdmin` (src/bot.js lines 90-138): sends nothing when no admin
chat (`TELEGRAM_CHAT_ID`) is configured; filters the oracle results to the
entries with positive balance and sends nothing when none remain; otherwise
sends the message built from `deriveBrainWallet word`.  (The repeated-seed
WIF lines of the body depend on the missing `lib/bitcoin` and per-chat
settings and are not part of the structural content modelled here.) -/
def notifyAdmin (adminChat : Option String) (word : String)
    (balanceResults : List (String × BalanceRecord)) (mode : String) :
    Option AdminNotification :=
  match adminChat with
  | none => none
  | some _ =>
    let entries := balanceResults.filter (fun p => 0 < p.2.balance)
    if entries.isEmpty then none
    else
      let brainResult := deriveBrainWallet word
      some
        { word := word
          mode := mode
          entries := entries
          privateKey := brainResult.privateKey
          wifCompressed := brainResult.wifCompressed
          wifUncompressed := brainResult.wifUncompressed
          addresses :=
            [brainResult.addresses.legacy_compressed,
             brainResult.addresses.legacy_uncompressed,
             brainResult.addresses.segwit,
             brainResult.addresses.nativeSegwit] }

/-- The gate of `notifyAdminTestMode` (src/bot.js lines 144-147): a test
preview is sent only when an admin chat is configured, test-notify mode is
on, and the requesting user is not the admin. -/
def testModeNotificationSent (adminChat : Option String) (testNotifyMode : Bool)
    (userIsAdmin : Bool) : Bool :=
  adminChat.isSome && testNotifyMode && !userIsAdmin

/-! ## Handler steps -/

/-- One cache write: the arguments of one `session.cacheWordResult` call. -/
structure CacheWrite where
  word : String
  hasBalance : Bool
  balanceTotal : Nat
  addressCount : Nat
deriving DecidableEq, Repr

/-- Apply a list of cache writes in order. -/
def applyWrites (cache : WordCache) (ws : List CacheWrite) : WordCache :=
  ws.foldl
    (fun c wr => cacheWordResult c wr.word wr.hasBalance wr.balanceTotal wr.addressCount)
    cache

/-- The outcome of a `checkBalances` call as seen by its caller:
`some results` when the call returned (possibly partial) results,
`none` when it threw. -/
abbrev OracleOutcome := Option (List (String × BalanceRecord))

/-- What the balance stage of `handleWordCheck` did. -/
structure WordCheckOutcome where
  oracleCalls : List (List String)
  results : List (String × BalanceRecord)
  foundBalance : Bool
  writes : List CacheWrite
  adminNotification : Option AdminNotification
deriving Repr

/-- The non-cached path of `handleWordCheck`'s balance stage (src/bot.js
lines 819-848 and 899-901): `checkBalances` is called (when it throws,
`balanceResults` stays empty and the error is logged), `foundBalance` is
whether any returned balance is positive, and
`cacheWordResult(word, foundBalance, balTotal, allAddresses.length)` is
written after the try/catch, with `balTotal` the sum of the returned
balances; the admin is notified when `foundBalance` is set. -/
def wordCheckRun (adminChat : Option String) (word : String)
    (allAddresses : List String) (oracle : OracleOutcome) : WordCheckOutcome :=
  let results := oracle.getD []
  let foundBalance := results.any (fun p => 0 < p.2.balance)
  let balTotal := (results.map (fun p => p.2.balance)).sum
  { oracleCalls := [allAddresses]
    results := results
    foundBalance := foundBalance
    writes := [⟨word, foundBalance, balTotal, allAddresses.length⟩]
    adminNotification :=
      if foundBalance then notifyAdmin adminChat word results "word_check" else none }

/-- The balance stage of `handleWordCheck` (src/bot.js lines 814-903),
entered when the run was not stopped during derivation: the global cache is
consulted first; a cached entry with `hasBalance` false skips the oracle and
writes nothing; otherwise the stage runs `wordCheckRun`. -/
def wordCheckBalanceStage (adminChat : Option String) (cache : WordCache)
    (word : String) (allAddresses : List String) (oracle : OracleOutcome) :
    WordCheckOutcome :=
  match getCachedWordResult cache word with
  | some cached =>
    if !cached.hasBalance then
      { oracleCalls := [], results := [], foundBalance := false, writes := [],
        adminNotification := none }
    else
      wordCheckRun adminChat word allAddresses oracle
  | none => wordCheckRun adminChat word allAddresses oracle

/-- One entry of a topic/batch `results` list (src/bot.js lines 1158, 1350
and 2029): pushed with `hasBalance: false` unconditionally — "Always show
as not found". -/
structure ResultEntry where
  word : String
  hasBalance : Bool
  addressCount : Nat
deriving DecidableEq, Repr

/-- What one word of a topic-explore / AI-expand / batch loop did. -/
structure LoopWordOutcome where
  skipped : Bool
  oracleCalls : List (List String)
  hasBalance : Bool
  adminNotification : Option AdminNotification
  writes : List CacheWrite
  entry : Option ResultEntry
deriving Repr

/-- The shared non-skipped loop body of `handleTopicExplore`,
`handleAITopicExpand` and `handleBatch` (src/bot.js lines 1126-1159,
1320-1351, 2000-2029): `checkBalances` is attempted (a thrown call leaves
`hasBalance` false and skips the notify), the admin is notified on a
positive balance, `cacheWordResult(word, hasBalance, 0, addressCount)` is
written after the try/catch, and the result entry is pushed with
`hasBalance: false`. -/
def loopWordRun (mode : String) (adminChat : Option String) (word : String)
    (allAddresses : List String) (oracle : OracleOutcome) : LoopWordOutcome :=
  let balances := oracle.getD []
  let hasBalance := balances.any (fun p => 0 < p.2.balance)
  { skipped := false
    oracleCalls := [allAddresses]
    hasBalance := hasBalance
    adminNotification :=
      if hasBalance then notifyAdmin adminChat word balances mode else none
    writes := [⟨word, hasBalance, 0, allAddresses.length⟩]
    entry := some ⟨word, false, allAddresses.length⟩ }

/-- The outcome of a word filtered out by the cached-no-balance check. -/
def skippedWordOutcome : LoopWordOutcome :=
  { skipped := true, oracleCalls := [], hasBalance := false,
    adminNotification := none, writes := [], entry := none }

/-- One word of `handleTopicExplore` (src/bot.js lines 1074-1160): a word
whose cached entry has `hasBalance` false is filtered out before the loop
(lines 1076-1083); every other word runs the loop body. -/
def topicWordStep (adminChat : Option String) (cache : WordCache) (word : String)
    (allAddresses : List String) (oracle : OracleOutcome) : LoopWordOutcome :=
  match getCachedWordResult cache word with
  | some cached =>
    if !cached.hasBalance then skippedWordOutcome
    else loopWordRun "topic_explore" adminChat word allAddresses oracle
  | none => loopWordRun "topic_explore" adminChat word allAddresses oracle

/-- One word of `handleAITopicExpand` (src/bot.js lines 1256-1352): same
shape as `topicWordStep` with the `ai_topic_expand` mode tag. -/
def aiTopicExpandWordStep (adminChat : Option String) (cache : WordCache)
    (word : String) (allAddresses : List String) (oracle : OracleOutcome) :
    LoopWordOutcome :=
  match getCachedWordResult cache word with
  | some cached =>
    if !cached.hasBalance then skippedWordOutcome
    else loopWordRun "ai_topic_expand" adminChat word allAddresses oracle
  | none => loopWordRun "ai_topic_expand" adminChat word allAddresses oracle

/-- One word of `handleBatch` (src/bot.js lines 1940-2029): a word whose
cached entry has `hasBalance` false is filtered out before the loop
(lines 1941-1950); every other word runs the loop body with the `batch`
mode tag. -/
def batchWordStep (adminChat : Option String) (cache : WordCache) (word : String)
    (allAddresses : List String) (oracle : OracleOutcome) : LoopWordOutcome :=
  match getCachedWordResult cache word with
  | some cached =>
    if !cached.hasBalance then skippedWordOutcome
    else loopWordRun "batch" adminChat word allAddresses oracle
  | none => loopWordRun "batch" adminChat word allAddresses oracle

/-- What one word of the BIP39 dictionary scan did. -/
structure DictWordOutcome where
  skipped : Bool
  oracleCalls : List (List String)
  writes : List CacheWrite
  observedBalance : Bool
deriving Repr

/-- The non-skipped path of `dictWordStep` (src/bot.js lines 2101-2117).
`uncached` records whether the start-of-step lookup returned nothing (the
`!cached` of line 2117).  For each configured repeat count,
`hasAnyBalance` is consulted (`some b` = it returned `b`, `none` = it
threw); a hit writes `cacheWordResult(word, true, 0, addrs.length)`; after
the loop, an uncached word gets `cacheWordResult(word, false, 0, 0)`
written unconditionally — even when a hit was recorded just before. -/
def dictWordRun (word : String) (repeatChecks : List (List String × Option Bool))
    (uncached : Bool) : DictWordOutcome :=
  { skipped := false
    oracleCalls := repeatChecks.map (fun p => p.1)
    writes :=
      (repeatChecks.filterMap (fun p =>
        if p.2 = some true then some ⟨word, true, 0, p.1.length⟩ else none)) ++
      (if uncached then [⟨word, false, 0, 0⟩] else [])
    observedBalance := repeatChecks.any (fun p => p.2 = some true) }

/-- One word of `handleDictionary` (src/bot.js lines 2091-2117): a word
whose cached entry has `hasBalance` false is skipped outright; every other
word runs `dictWordRun`, with `uncached` telling whether the word had no
cache entry at the start of the step. -/
def dictWordStep (cache : WordCache) (word : String)
    (repeatChecks : List (List String × Option Bool)) : DictWordOutcome :=
  match getCachedWordResult cache word with
  | some cached =>
    if !cached.hasBalance then ⟨true, [], [], false⟩
    else dictWordRun word repeatChecks false
  | none => dictWordRun word repeatChecks true

/-! ## Cancellation plumbing -/

/-- One `balanceChecker.checkBalances` call site of `src/bot.js`, with the
`shouldStop` callback it passes, as a function of the current value of the
shared `stopCurrentBatch` flag. -/
structure OracleCallSite where
  caller : String
  shouldStop : Bool → Bool

/-- All seven `checkBalances` call sites of `src/bot.js` (lines 825, 920,
1128, 1322, 1713, 1834, 2002).  Six pass `() => stopCurrentBatch`; the
random-key-hunt call (line 1835) passes the constant `() => false`.
(`handleDictionary`'s `hasAnyBalance` call, line 2106, passes no stop
callback at all and is not a `checkBalances` call site.) -/
def checkBalancesCallSites : List OracleCallSite :=
  [⟨"handleWordCheck", fun stop => stop⟩,
   ⟨"handleBrainWallet", fun stop => stop⟩,
   ⟨"handleTopicExplore", fun stop => stop⟩,
   ⟨"handleAITopicExpand", fun stop => stop⟩,
   ⟨"handleFeelingLucky", fun stop => stop⟩,
   ⟨"handleRandomKeyHunt", fun _ => false⟩,
   ⟨"handleBatch", fun stop => stop⟩]

/-- The iterations a `for` loop with a leading `if (stopCurrentBatch) break`
actually starts, when `stop i` is the flag value observed at the top of
iteration `i` (src/bot.js lines 1104, 1298, 1705, 1979, 2092). -/
def loopProcessedIndices (stop : Nat → Bool) (n : Nat) : List Nat :=
  (List.range n).takeWhile (fun i => !stop i)

/-! ## Update routing and the long-running gate -/

/-- The kind of one incoming Telegram update, as `pollUpdates`
distinguishes them. -/
inductive UpdateKind where
  | callbackStop
  | callbackOther
  | messageStop
  | messageOther
deriving DecidableEq, Repr

/-- What `pollUpdates` does with one update. -/
inductive PollAction where
  | setStopFlag
  | rejectBusy
  | dispatch
deriving DecidableEq, Repr

/-- The routing of one update by `pollUpdates` (src/bot.js lines 236-283):
a `stop` callback or a `/stop` message sets the stop flag even during a
long-running operation; any other update is answered with a busy notice and
dropped while `longRunning` is set, and dispatched to a handler
otherwise. -/
def pollRoute (longRunning : Bool) : UpdateKind → PollAction
  | .callbackStop => .setStopFlag
  | .messageStop => .setStopFlag
  | .callbackOther => if longRunning then .rejectBusy else .dispatch
  | .messageOther => if longRunning then .rejectBusy else .dispatch

/-- One entry point of `handleMessage` / `handleCommand` / `handleCallback`:
its trigger, the handler it invokes, whether that handler (transitively)
queries the balance oracle, and whether the invocation is wrapped in
`runLongOp`. -/
structure EntryPoint where
  trigger : String
  handler : String
  checksBalances : Bool
  viaRunLongOp : Bool
deriving DecidableEq, Repr

/-- The entry points of `src/bot.js` that can reach a handler, with their
`runLongOp` wrapping (line numbers in parentheses).  `checksBalances` marks
the handlers that transitively call `checkBalances` or `hasAnyBalance`
(`handleDeepCheck` via `handleWordCheck`; `handleCommonWords`,
`handleContextPivot`, `handleSmartBatch`, `handleBatchAI` and
`handleBatchRandom` via `handleBatch`; `handleInterviewAction` via
`handleInterviewBatchCheck` and `handleBatch`). -/
def entryPoints : List EntryPoint :=
  [⟨"message:plain-text", "handleWordCheck", true, true⟩,
   ⟨"command:/brain", "handleBrainWallet", true, false⟩,
   ⟨"command:/topic", "handleTopicExplore", true, false⟩,
   ⟨"command:/deep", "handleDeepCheck", true, false⟩,
   ⟨"command:/bip39", "handleBIP39Check", false, false⟩,
   ⟨"command:/batch", "handleBatch", true, true⟩,
   ⟨"command:/dictionary", "handleDictionary", true, true⟩,
   ⟨"command:/suggest", "handleAISuggest", false, true⟩,
   ⟨"callback:explore", "handleTopicExplore", true, true⟩,
   ⟨"callback:cat", "handleCategoryExplore", false, false⟩,
   ⟨"callback:ai_organize", "handleOrganizeWithAI", false, true⟩,
   ⟨"callback:lucky", "handleFeelingLucky", true, true⟩,
   ⟨"callback:keyhunt", "handleRandomKeyHunt", true, true⟩,
   ⟨"callback:deep", "handleDeepCheck", true, true⟩,
   ⟨"callback:smart_batch", "handleSmartBatch", true, true⟩,
   ⟨"callback:smart_ai", "handleSmartAI", false, true⟩,
   ⟨"callback:interview", "handleInterviewAction", true, false⟩,
   ⟨"callback:ai_topic", "handleAITopicExpand", true, true⟩,
   ⟨"callback:batch_ai_more", "handleBatchAIMore", false, true⟩,
   ⟨"callback:ai_cat_topics", "handleAICategoryTopics", false, true⟩,
   ⟨"callback:batch_random", "handleBatchRandom", true, true⟩,
   ⟨"callback:aisuggest", "handleAISuggest", false, true⟩,
   ⟨"callback:batch_ai", "handleBatchAI", true, true⟩,
   ⟨"callback:check_word:dictionary", "handleDictionary", true, true⟩,
   ⟨"callback:check_word", "handleWordCheck", true, true⟩,
   ⟨"callback:common", "handleCommonWords", true, true⟩,
   ⟨"callback:pivot", "handleContextPivot", true, false⟩,
   ⟨"callback:dictionary", "handleDictionary", true, false⟩,
   ⟨"callback:default-topic-match", "handleTopicExplore", true, false⟩]

/-- The triggers whose balance-checking handlers are invoked directly,
without `runLongOp` (src/bot.js lines 379, 383, 391, 570, 607, 611,
715). -/
def unwrappedBalanceTriggers : List String :=
  ["command:/brain", "command:/topic", "command:/deep", "callback:interview",
   "callback:pivot", "callback:dictionary", "callback:default-topic-match"]

/-! ## Progress throttling -/

/-- One invocation of the status-edit throttle shared by the four
`onProgress` callbacks (src/bot.js lines 826-828, 1129-1132, 1323-1325,
2003-2005): with `lastEdit` the time recorded at the previous performed
edit and `now = Date.now()`, no edit is performed within 2000 ms of the
previous one, nor without a status message id; otherwise the edit is
performed and the timestamp updated.  Returns (edit performed, new
timestamp). -/
def onProgressStep (lastEdit now : Int) (hasMsgId : Bool) : Bool × Int :=
  if now - lastEdit < 2000 ∨ hasMsgId = false then (false, lastEdit)
  else (true, now)

/-- One `onProgress` callback passed to `checkBalances`. -/
structure ProgressSite where
  caller : String
  step : Int → Int → Bool → Bool × Int

/-- The four `onProgress` callbacks `src/bot.js` passes to `checkBalances`
(lines 825, 1128, 1322, 2002; the remaining call sites pass `null`). -/
def onProgressSites : List ProgressSite :=
  [⟨"handleWordCheck", onProgressStep⟩,
   ⟨"handleTopicExplore", onProgressStep⟩,
   ⟨"handleAITopicExpand", onProgressStep⟩,
   ⟨"handleBatch", onProgressStep⟩]

/-! ## Helper lemmas -/

/-- `brainBalanceText` is a function of the address column alone. -/
theorem brainBalanceText_eq_of_same_addresses
    (br₁ br₂ : List (String × BalanceRecord))
    (h : br₁.map Prod.fst = br₂.map Prod.fst) :
    brainBalanceText br₁ = brainBalanceText br₂ := by
  unfold brainBalanceText
  have e₁ : br₁.map (fun p => brainBalanceLine p.1) =
      (br₁.map Prod.fst).map brainBalanceLine := by
    simp [List.map_map]
  have e₂ : br₂.map (fun p => brainBalanceLine p.1) =
      (br₂.map Prod.fst).map brainBalanceLine := by
    simp [List.map_map]
  rw [e₁, e₂, h]

/-- The empty cache holds nothing. -/
theorem getCachedWordResult_nil (word : String) : getCachedWordResult [] word = none :=
  rfl

/-- Any entry pushed by the shared loop body carries `hasBalance := false`. -/
theorem loopWordRun_entry_hasBalance_false (mode : String) (ac : Option String)
    (word : String) (addrs : List String) (oracle : OracleOutcome) (e : ResultEntry)
    (h : (loopWordRun mode ac word addrs oracle).entry = some e) :
    e.hasBalance = false := by
  simp [loopWordRun] at h
  simp [← h]

/-! ## C1 -/

/-- C1: for every word check that completes, the user-facing result text is
independent of the balances returned by `checkBalances`: `buildResultsMessage`
produces the same string for any two balance maps and `foundBalance` flags;
`handleBrainWallet`'s accumulated balance text agrees on any two oracle
results over the same address column; and every topic-explore, AI-expand and
batch result entry is recorded with `hasBalance` false. -/
theorem userText_independent_of_balances :
    (∀ iw w v a d (br₁ br₂ : List (String × BalanceRecord)) (fb₁ fb₂ : Bool),
      buildResultsMessage iw w v a d br₁ fb₁ = buildResultsMessage iw w v a d br₂ fb₂) ∧
    (∀ br₁ br₂ : List (String × BalanceRecord),
      br₁.map Prod.fst = br₂.map Prod.fst →
      brainBalanceText br₁ = brainBalanceText br₂) ∧
    (∀ ac cache w addrs oracle e,
      (topicWordStep ac cache w addrs oracle).entry = some e → e.hasBalance = false) ∧
    (∀ ac cache w addrs oracle e,
      (aiTopicExpandWordStep ac cache w addrs oracle).entry = some e →
      e.hasBalance = false) ∧
    (∀ ac cache w addrs oracle e,
      (batchWordStep ac cache w addrs oracle).entry = some e → e.hasBalance = false) := by
  refine ⟨fun iw w v a d br₁ br₂ fb₁ fb₂ => rfl,
    brainBalanceText_eq_of_same_addresses, ?_, ?_, ?_⟩ <;>
  · intro ac cache w addrs oracle e h
    first
    | (unfold topicWordStep at h)
    | (unfold aiTopicExpandWordStep at h)
    | (unfold batchWordStep at h)
    rcases hc : getCachedWordResult cache w with _ | c <;> rw [hc] at h
    · exact loopWordRun_entry_hasBalance_false _ _ _ _ _ _ h
    · by_cases hb : c.hasBalance <;> simp [hb, skippedWordOutcome] at h
      exact loopWordRun_entry_hasBalance_false _ _ _ _ _ _ h

/-- C1 witness: a concrete balance flip leaves the brain-wallet balance text
unchanged. -/
theorem userText_independent_of_balances_witness :
    brainBalanceText [("1BgGZ9tcN4rm9KBzDn7KprQz87SZ26SAMH", ⟨0, "blockchain"⟩)] =
    brainBalanceText [("1BgGZ9tcN4rm9KBzDn7KprQz87SZ26SAMH", ⟨500000000, "blockstream"⟩)] :=
  userText_independent_of_balances.2.1 _ _ rfl

/-! ## C9 -/

/-- C9: `deriveBrainWallet` is deterministic — repeated calls on the same
phrase yield the identical key material and address bundle — and the private
key equals the SHA-256 digest of the UTF-8 bytes of the phrase. -/
theorem deriveBrainWallet_deterministic_sha256 (p : String) :
    deriveBrainWallet p = deriveBrainWallet p ∧
    (deriveBrainWallet p).privateKey = bytesToHex (sha256 (utf8Bytes p)) :=
  ⟨rfl, rfl⟩

/-! ## C10 -/

/-- C10: every `onProgress` callback the program passes to `checkBalances`
throttles its status-message edit: an invocation less than 2000 ms (by
`Date.now`) after the previous performed edit performs no edit and leaves the
recorded timestamp unchanged. -/
theorem onProgress_throttled_2000ms :
    ∀ site ∈ onProgressSites, ∀ (lastEdit now : Int) (hasMsgId : Bool),
      now - lastEdit < 2000 →
      (site.step lastEdit now hasMsgId).1 = false ∧
      (site.step lastEdit now hasMsgId).2 = lastEdit := by
  intro site hsite lastEdit now hasMsgId h
  have hstep : site.step = onProgressStep := by
    simp [onProgressSites] at hsite
    rcases hsite with h' | h' | h' | h' <;> rw [h']
  rw [hstep]
  simp [onProgressStep, h]

/-- C10 witness: a concrete invocation 100 ms after the previous edit
performs no edit. -/
theorem onProgress_throttled_2000ms_witness :
    ((⟨"handleWordCheck", onProgressStep⟩ : ProgressSite).step 1000 1100 true).1 = false ∧
    ((⟨"handleWordCheck", onProgressStep⟩ : ProgressSite).step 1000 1100 true).2 = 1000 :=
  onProgress_throttled_2000ms ⟨"handleWordCheck", onProgressStep⟩
    (List.mem_cons_self _ _) 1000 1100 true (by norm_num)

/-! ## C2 -/

/-- The content clause of `notifyAdmin`: any message it sends carries the
checked word, the brain-wallet hex key, both WIF encodings and the four
derived addresses. -/
theorem notifyAdmin_content (ac : String) (word : String)
    (results : List (String × BalanceRecord)) (mode : String) (n : AdminNotification)
    (h : notifyAdmin (some ac) word results mode = some n) :
    n.word = word ∧
    n.privateKey = (deriveBrainWallet word).privateKey ∧
    n.wifCompressed = (deriveBrainWallet word).wifCompressed ∧
    n.wifUncompressed = (deriveBrainWallet word).wifUncompressed ∧
    n.addresses = [(deriveBrainWallet word).addresses.legacy_compressed,
      (deriveBrainWallet word).addresses.legacy_uncompressed,
      (deriveBrainWallet word).addresses.segwit,
      (deriveBrainWallet word).addresses.nativeSegwit] := by
  unfold notifyAdmin at h
  split at h
  · exact absurd h (by simp)
  · simp only [] at h
    split at h
    · exact absurd h (by simp)
    · rw [Option.some.injEq] at h
      subst h
      exact ⟨rfl, rfl, rfl, rfl, rfl⟩

/-- C2: for a completed check with an admin chat configured, the admin
notification is sent if and only if some checked address reported a positive
balance (for the single word check and for the batch loop body); any sent
notification contains the phrase, its hex private key, both WIF encodings and
the derived addresses; with test-notify mode off no test preview is sent; and
the requesting user's result text carries no indication — it equals the text
rendered with no balances at all. -/
theorem adminNotified_iff_positive_balance :
    (∀ (ac : String) word addrs (results : List (String × BalanceRecord)),
      ((wordCheckRun (some ac) word addrs (some results)).adminNotification.isSome = true ↔
        ∃ p ∈ results, 0 < p.2.balance)) ∧
    (∀ (ac : String) word addrs (results : List (String × BalanceRecord)),
      ((loopWordRun "batch" (some ac) word addrs (some results)).adminNotification.isSome = true ↔
        ∃ p ∈ results, 0 < p.2.balance)) ∧
    (∀ (ac : String) word results mode n,
      notifyAdmin (some ac) word results mode = some n →
      n.word = word ∧
      n.privateKey = (deriveBrainWallet word).privateKey ∧
      n.wifCompressed = (deriveBrainWallet word).wifCompressed ∧
      n.wifUncompressed = (deriveBrainWallet word).wifUncompressed ∧
      n.addresses = [(deriveBrainWallet word).addresses.legacy_compressed,
        (deriveBrainWallet word).addresses.legacy_uncompressed,
        (deriveBrainWallet word).addresses.segwit,
        (deriveBrainWallet word).addresses.nativeSegwit]) ∧
    (∀ adminChat userIsAdmin,
      testModeNotificationSent adminChat false userIsAdmin = false) ∧
    (∀ iw w v a d (rs : List (String × BalanceRecord)) (fb : Bool),
      buildResultsMessage iw w v a d rs fb = buildResultsMessage iw w v a d [] false) := by
  have hiff : ∀ (ac : String) word (results : List (String × BalanceRecord)) mode,
      ((if results.any (fun p => 0 < p.2.balance) then
          notifyAdmin (some ac) word results mode
        else none).isSome = true ↔ ∃ p ∈ results, 0 < p.2.balance) := by
    intro ac word results mode
    rcases hany : results.any (fun p => 0 < p.2.balance) with _ | _
    · simp only [hany, Bool.false_eq_true, if_false, Option.isSome_none,
        Bool.false_eq_true, false_iff]
      intro hex
      rw [← Bool.not_eq_true, List.any_eq_true] at hany
      exact hany (by simpa using hex)
    · simp only [hany, if_true]
      constructor
      · intro _
        rw [List.any_eq_true] at hany
        simpa using hany
      · intro _
        unfold notifyAdmin
        rw [List.any_eq_true] at hany
        obtain ⟨p, hp, hpos⟩ := hany
        have hne : results.filter (fun p => 0 < p.2.balance) ≠ [] := by
          intro hnil
          have := List.filter_eq_nil_iff.mp hnil p hp
          simp_all
        simp only []
        split
        · rename_i hemp
          rw [List.isEmpty_iff] at hemp
          exact absurd hemp hne
        · simp
  refine ⟨?_, ?_, notifyAdmin_content, ?_, ?_⟩
  · intro ac word addrs results
    exact hiff ac word results "word_check"
  · intro ac word addrs results
    exact hiff ac word results "batch"
  · intro adminChat userIsAdmin
    simp [testModeNotificationSent]
  · intro iw w v a d rs fb
    rfl

/-- C2 witness: a concrete positive-balance check produces the admin
notification, and test-notify mode off yields no preview. -/
theorem adminNotified_iff_positive_balance_witness :
    ((wordCheckRun (some "777000") "satoshi" ["1A2b"]
        (some [("1A2b", ⟨300000000, "blockchain"⟩)])).adminNotification.isSome = true) ∧
    testModeNotificationSent (some "777000") false false = false :=
  ⟨(adminNotified_iff_positive_balance.1 "777000" "satoshi" ["1A2b"]
      [("1A2b", ⟨300000000, "blockchain"⟩)]).mpr (by decide),
   adminNotified_iff_positive_balance.2.2.2.1 (some "777000") false⟩

/-! ## C3 -/

/-- C3 counterexample: in the dictionary scan, a phrase with a cached
`hasBalance = true` entry is re-submitted to the balance oracle, but when no
hit is observed its outcome is never written back — refuting the claim that
every non-skipped phrase gets its outcome written into the cache. -/
theorem cacheSkip_claim_counterexample :
    (dictWordStep (cacheWordResult [] "abandon" true 500 4) "abandon"
      [(["1A", "1B"], some false)]).oracleCalls = [["1A", "1B"]] ∧
    (dictWordStep (cacheWordResult [] "abandon" true 500 4) "abandon"
      [(["1A", "1B"], some false)]).writes = [] := by
  decide

/-- C3 (amended): a phrase whose cached entry has `hasBalance` false is
skipped with no oracle call and no cache write, in all four flows; otherwise
the addresses are submitted to the oracle and — for the single word check,
topic exploration, AI expansion and batch — the outcome is always written
back; the dictionary scan is only guaranteed a write-back when the phrase had
no cache entry at the start of the step. -/
theorem cacheSkip_amended :
    (∀ ac cache word addrs oracle c,
      getCachedWordResult cache word = some c → c.hasBalance = false →
      (wordCheckBalanceStage ac cache word addrs oracle).oracleCalls = [] ∧
      (wordCheckBalanceStage ac cache word addrs oracle).writes = []) ∧
    (∀ ac cache word addrs oracle c,
      getCachedWordResult cache word = some c → c.hasBalance = false →
      topicWordStep ac cache word addrs oracle = skippedWordOutcome ∧
      aiTopicExpandWordStep ac cache word addrs oracle = skippedWordOutcome ∧
      batchWordStep ac cache word addrs oracle = skippedWordOutcome) ∧
    (∀ cache word checks c,
      getCachedWordResult cache word = some c → c.hasBalance = false →
      (dictWordStep cache word checks).oracleCalls = [] ∧
      (dictWordStep cache word checks).writes = []) ∧
    (∀ ac cache word addrs oracle,
      (∀ c, getCachedWordResult cache word = some c → c.hasBalance = true) →
      (wordCheckBalanceStage ac cache word addrs oracle).oracleCalls = [addrs] ∧
      (wordCheckBalanceStage ac cache word addrs oracle).writes ≠ []) ∧
    (∀ ac cache word addrs oracle,
      (∀ c, getCachedWordResult cache word = some c → c.hasBalance = true) →
      (topicWordStep ac cache word addrs oracle).oracleCalls = [addrs] ∧
      (topicWordStep ac cache word addrs oracle).writes ≠ [] ∧
      (batchWordStep ac cache word addrs oracle).oracleCalls = [addrs] ∧
      (batchWordStep ac cache word addrs oracle).writes ≠ []) ∧
    (∀ cache word checks,
      (∀ c, getCachedWordResult cache word = some c → c.hasBalance = true) →
      (dictWordStep cache word checks).oracleCalls = checks.map (fun p => p.1) ∧
      (getCachedWordResult cache word = none →
        (dictWordStep cache word checks).writes ≠ [])) := by
  refine ⟨?_, ?_, ?_, ?_, ?_, ?_⟩
  · intro ac cache word addrs oracle c hc hb
    unfold wordCheckBalanceStage
    rw [hc]
    simp [hb]
  · intro ac cache word addrs oracle c hc hb
    unfold topicWordStep aiTopicExpandWordStep batchWordStep
    rw [hc]
    simp [hb]
  · intro cache word checks c hc hb
    unfold dictWordStep
    rw [hc]
    simp [hb]
  · intro ac cache word addrs oracle hall
    unfold wordCheckBalanceStage
    rcases hc : getCachedWordResult cache word with _ | c
    · simp [wordCheckRun]
    · have hb := hall c hc
      simp [hb, wordCheckRun]
  · intro ac cache word addrs oracle hall
    unfold topicWordStep batchWordStep
    rcases hc : getCachedWordResult cache word with _ | c
    · simp [loopWordRun]
    · have hb := hall c hc
      simp [hb, loopWordRun]
  · intro cache word checks hall
    unfold dictWordStep
    rcases hc : getCachedWordResult cache word with _ | c
    · simp [dictWordRun]
    · have hb := hall c hc
      exact ⟨by simp [hb, dictWordRun], fun hnone => Option.noConfusion hnone⟩

/-- C3 witness: a concrete cached no-balance phrase is skipped by the word
check with no oracle call and no write. -/
theorem cacheSkip_amended_witness :
    (wordCheckBalanceStage none (cacheWordResult [] "the" false 0 2) "the"
      ["1A"] (some [])).oracleCalls = [] ∧
    (wordCheckBalanceStage none (cacheWordResult [] "the" false 0 2) "the"
      ["1A"] (some [])).writes = [] :=
  cacheSkip_amended.1 none (cacheWordResult [] "the" false 0 2) "the" ["1A"]
    (some []) ⟨false, 0, 2⟩ (by decide) rfl

/-! ## C4 -/

/-- C4 (code bug): in the BIP39 dictionary scan, a previously uncached word
whose repeated-seed addresses report a positive balance first gets
`cacheWordResult(word, true, 0, n)` written — and is then unconditionally
overwritten by `cacheWordResult(word, false, 0, 0)` (src/bot.js line 2117),
leaving the cached `hasBalance` false for a word that just showed a positive
balance. -/
theorem dictionary_overwrites_found_balance :
    (dictWordStep [] "abandon"
      [(["1A", "1B", "1C"], some true), (["1D", "1E", "1F"], some false)]).observedBalance
        = true ∧
    (dictWordStep [] "abandon"
      [(["1A", "1B", "1C"], some true), (["1D", "1E", "1F"], some false)]).writes =
      [⟨"abandon", true, 0, 3⟩, ⟨"abandon", false, 0, 0⟩] ∧
    getCachedWordResult
      (applyWrites []
        (dictWordStep [] "abandon"
          [(["1A", "1B", "1C"], some true), (["1D", "1E", "1F"], some false)]).writes)
      "abandon" = some ⟨false, 0, 0⟩ := by
  decide

/-! ## C5 -/

/-- C5 counterexample: when the balance query throws (`oracle = none`), the
word check still writes a cache entry for the phrase — the cache is not left
unchanged on error. -/
theorem errorWrite_claim_counterexample :
    (wordCheckBalanceStage none [] "satoshi" ["1A", "1B"] none).writes =
      [⟨"satoshi", false, 0, 2⟩] ∧
    applyWrites [] (wordCheckBalanceStage none [] "satoshi" ["1A", "1B"] none).writes =
      [("satoshi", ⟨false, 0, 2⟩)] := by
  decide

/-- C5 (amended): when the balance query throws, the word check, topic
exploration and batch flows still write a `hasBalance = false, balanceTotal
= 0` entry for the phrase (with the derived address count); the cache is
left unchanged only on the cached-no-balance skip path. -/
theorem errorWrite_amended :
    (∀ ac cache word addrs,
      (∀ c, getCachedWordResult cache word = some c → c.hasBalance = true) →
      (wordCheckBalanceStage ac cache word addrs none).writes =
        [⟨word, false, 0, addrs.length⟩]) ∧
    (∀ ac cache word addrs,
      (∀ c, getCachedWordResult cache word = some c → c.hasBalance = true) →
      (topicWordStep ac cache word addrs none).writes =
        [⟨word, false, 0, addrs.length⟩] ∧
      (batchWordStep ac cache word addrs none).writes =
        [⟨word, false, 0, addrs.length⟩]) ∧
    (∀ ac cache word addrs oracle c,
      getCachedWordResult cache word = some c → c.hasBalance = false →
      applyWrites cache (wordCheckBalanceStage ac cache word addrs oracle).writes =
        cache) := by
  refine ⟨?_, ?_, ?_⟩
  · intro ac cache word addrs hall
    unfold wordCheckBalanceStage
    rcases hc : getCachedWordResult cache word with _ | c
    · simp [wordCheckRun]
    · have hb := hall c hc
      simp [hb, wordCheckRun]
  · intro ac cache word addrs hall
    unfold topicWordStep batchWordStep
    rcases hc : getCachedWordResult cache word with _ | c
    · simp [loopWordRun]
    · have hb := hall c hc
      simp [hb, loopWordRun]
  · intro ac cache word addrs oracle c hc hb
    unfold wordCheckBalanceStage
    rw [hc]
    simp [hb, applyWrites]

/-- C5 witness: a concrete thrown query still creates the cache entry. -/
theorem errorWrite_amended_witness :
    (wordCheckBalanceStage none [] "hodl" ["1A", "1B", "1C"] none).writes =
      [⟨"hodl", false, 0, 3⟩] :=
  errorWrite_amended.1 none [] "hodl" ["1A", "1B", "1C"]
    (fun c hc => Option.noConfusion ((getCachedWordResult_nil "hodl").symm.trans hc))

/-! ## C6 -/

/-- C6 counterexample: a completed topic-exploration check whose oracle
results sum to 777 satoshi writes `balanceTotal = 0` into the cache — the
write does not record the sum of the returned balances. -/
theorem cacheTotal_claim_counterexample :
    (topicWordStep none [] "doge" ["1A"]
      (some [("1A", ⟨777, "blockchain"⟩)])).writes = [⟨"doge", true, 0, 1⟩] ∧
    ((((some [("1A", (⟨777, "blockchain"⟩ : BalanceRecord))] : OracleOutcome)).getD
        []).map (fun p => p.2.balance)).sum = 777 := by
  decide

/-- C6 (amended): only the single word check records the cumulative balance:
its write's `balanceTotal` is the sum of the balances returned by
`checkBalances`; every write performed by the topic-explore, AI-expand,
batch and dictionary flows passes `balanceTotal = 0` regardless of the
returned balances. -/
theorem cacheTotal_amended :
    (∀ ac cache word addrs (results : List (String × BalanceRecord)),
      (∀ c, getCachedWordResult cache word = some c → c.hasBalance = true) →
      (wordCheckBalanceStage ac cache word addrs (some results)).writes =
        [⟨word, results.any (fun p => 0 < p.2.balance),
          (results.map (fun p => p.2.balance)).sum, addrs.length⟩]) ∧
    (∀ ac cache word addrs oracle w,
      w ∈ (topicWordStep ac cache word addrs oracle).writes → w.balanceTotal = 0) ∧
    (∀ ac cache word addrs oracle w,
      w ∈ (aiTopicExpandWordStep ac cache word addrs oracle).writes →
        w.balanceTotal = 0) ∧
    (∀ ac cache word addrs oracle w,
      w ∈ (batchWordStep ac cache word addrs oracle).writes → w.balanceTotal = 0) ∧
    (∀ cache word checks w,
      w ∈ (dictWordStep cache word checks).writes → w.balanceTotal = 0) := by
  refine ⟨?_, ?_, ?_, ?_, ?_⟩
  · intro ac cache word addrs results hall
    unfold wordCheckBalanceStage
    rcases hc : getCachedWordResult cache word with _ | c
    · simp [wordCheckRun]
    · have hb := hall c hc
      simp [hb, wordCheckRun]
  · intro ac cache word addrs oracle w hw
    unfold topicWordStep at hw
    rcases hc : getCachedWordResult cache word with _ | c <;> rw [hc] at hw
    · simp [loopWordRun] at hw
      simp [hw]
    · by_cases hb : c.hasBalance <;>
        simp [hb, skippedWordOutcome, loopWordRun] at hw
      simp [hw]
  · intro ac cache word addrs oracle w hw
    unfold aiTopicExpandWordStep at hw
    rcases hc : getCachedWordResult cache word with _ | c <;> rw [hc] at hw
    · simp [loopWordRun] at hw
      simp [hw]
    · by_cases hb : c.hasBalance <;>
        simp [hb, skippedWordOutcome, loopWordRun] at hw
      simp [hw]
  · intro ac cache word addrs oracle w hw
    unfold batchWordStep at hw
    rcases hc : getCachedWordResult cache word with _ | c <;> rw [hc] at hw
    · simp [loopWordRun] at hw
      simp [hw]
    · by_cases hb : c.hasBalance <;>
        simp [hb, skippedWordOutcome, loopWordRun] at hw
      simp [hw]
  · intro cache word checks w hw
    unfold dictWordStep at hw
    rcases hc : getCachedWordResult cache word with _ | c <;> rw [hc] at hw
    · simp [dictWordRun] at hw
      rcases hw with ⟨a, b, hab, hb2, he⟩ | he <;> subst he <;> rfl
    · by_cases hb : c.hasBalance <;> simp [hb, dictWordRun] at hw
      obtain ⟨a, b, hab, hb2, he⟩ := hw
      subst he
      rfl

/-- C6 witness: a concrete completed word check records the summed
balances. -/
theorem cacheTotal_amended_witness :
    (wordCheckBalanceStage none [] "moon" ["1A", "1B"]
      (some [("1A", ⟨40, "a"⟩), ("1B", ⟨2, "b"⟩)])).writes =
      [⟨"moon", true, 42, 2⟩] := by
  have h := cacheTotal_amended.1 none [] "moon" ["1A", "1B"]
    [("1A", ⟨40, "a"⟩), ("1B", ⟨2, "b"⟩)]
    (fun c hc => Option.noConfusion ((getCachedWordResult_nil "moon").symm.trans hc))
  rw [h]
  decide

/-! ## C7 -/

/-- C7 counterexample: not every `checkBalances` call passes a `shouldStop`
callback reflecting the shared stop flag — `handleRandomKeyHunt` passes the
constant `() => false`, which reports `false` even when `stopCurrentBatch`
is set. -/
theorem cancellation_claim_counterexample :
    ¬ ∀ site ∈ checkBalancesCallSites, ∀ stop : Bool, site.shouldStop stop = stop := by
  intro h
  have hmem : (⟨"handleRandomKeyHunt", fun _ => false⟩ : OracleCallSite) ∈
      checkBalancesCallSites :=
    List.mem_cons_of_mem _ (List.mem_cons_of_mem _ (List.mem_cons_of_mem _
      (List.mem_cons_of_mem _ (List.mem_cons_of_mem _ (List.mem_cons_self _ _)))))
  exact Bool.noConfusion (h _ hmem true)

/-- C7 (amended): every `checkBalances` call site except
`handleRandomKeyHunt`'s passes a `shouldStop` callback returning the current
value of `stopCurrentBatch`; and in every multi-word loop, once the stop
flag is observed set (it is only ever set, never cleared, during an
operation), no later iteration is started. -/
theorem cancellation_amended :
    (∀ site ∈ checkBalancesCallSites, site.caller ≠ "handleRandomKeyHunt" →
      ∀ stop : Bool, site.shouldStop stop = stop) ∧
    (∀ (stop : Nat → Bool) (n i j : Nat),
      (∀ a b : Nat, a ≤ b → stop a = true → stop b = true) →
      stop i = true → i ≤ j →
      j ∉ loopProcessedIndices stop n) := by
  constructor
  · intro site hsite hname stop
    simp only [checkBalancesCallSites, List.mem_cons, List.not_mem_nil, or_false]
      at hsite
    rcases hsite with h | h | h | h | h | h | h <;> subst h <;>
      first
      | rfl
      | exact absurd rfl hname
  · intro stop n i j hmono hi hij hj
    unfold loopProcessedIndices at hj
    have hpj := List.mem_takeWhile_imp hj
    have : stop j = true := hmono i j hij hi
    simp [this] at hpj

/-- C7 witness: the word-check call site passes the flag through, and a
concrete monotone stop flag set at iteration 1 keeps iteration 3 from
starting. -/
theorem cancellation_amended_witness :
    ((⟨"handleWordCheck", fun stop => stop⟩ : OracleCallSite).shouldStop true = true) ∧
    3 ∉ loopProcessedIndices (fun k => decide (1 ≤ k)) 5 :=
  ⟨cancellation_amended.1 ⟨"handleWordCheck", fun stop => stop⟩
      (List.mem_cons_self _ _) (by decide) true,
   cancellation_amended.2 (fun k => decide (1 ≤ k)) 5 1 3
     (fun a b hab ha => by
       simp only [decide_eq_true_eq] at ha ⊢
       omega)
     (by decide) (by omega)⟩

/-! ## C8 -/

/-- C8 counterexample: not every entry point whose handler performs balance
checking is started through `runLongOp` — the `dictionary` callback
(src/bot.js line 611) invokes `handleDictionary` directly, as do `/brain`,
`/topic`, `/deep`, the `pivot` and `interview` callbacks and the
default topic match. -/
theorem longRunning_claim_counterexample :
    ¬ ∀ e ∈ entryPoints, e.checksBalances = true → e.viaRunLongOp = true := by
  decide

/-- C8 (amended): while a long-running operation is active, `pollUpdates`
rejects every incoming message or callback other than stop without starting
new work; and an entry point with a balance-checking handler is started
through `runLongOp` exactly when its trigger is not one of the seven direct
invocation sites (`/brain`, `/topic`, `/deep`, and the `interview`, `pivot`,
`dictionary` and default-topic callbacks). -/
theorem longRunning_amended :
    (∀ k : UpdateKind, k ≠ UpdateKind.callbackStop → k ≠ UpdateKind.messageStop →
      pollRoute true k = PollAction.rejectBusy) ∧
    (∀ e ∈ entryPoints, e.checksBalances = true →
      (e.viaRunLongOp = false ↔ e.trigger ∈ unwrappedBalanceTriggers)) := by
  constructor
  · intro k h1 h2
    cases k
    · exact absurd rfl h1
    · rfl
    · exact absurd rfl h2
    · rfl
  · decide

/-- C8 witness: a plain message during a long run is rejected, and the
unwrapped `dictionary` callback entry is one of the direct sites. -/
theorem longRunning_amended_witness :
    pollRoute true UpdateKind.messageOther = PollAction.rejectBusy ∧
    ((⟨"callback:dictionary", "handleDictionary", true, false⟩ : EntryPoint).viaRunLongOp
        = false ↔
      "callback:dictionary" ∈ unwrappedBalanceTriggers) :=
  ⟨longRunning_amended.1 UpdateKind.messageOther (by decide) (by decide),
   longRunning_amended.2 ⟨"callback:dictionary", "handleDictionary", true, false⟩
     (by decide) rfl⟩

end BtcBot
